import Mathlib

/-!
Verification development for the PowerPoint Assistant generation pipeline.

This file gives a shallow embedding, in Lean 4, of the pure logic of the
pipeline's core functions, translated directly from the Python sources:

* `src/tools/diagram_generator.py` — icon resolution (`_get_icon_class`,
  `_initialize_icon_mappings`) and connection rendering (`_create_connections`);
* `src/chains/diagram_generation_chain.py` — diagram-spec validation
  (`_validate_diagram_spec`), spec construction (`_create_diagram_spec`) and
  confidence scoring (`_calculate_confidence_score`);
* `src/chains/content_generation_chain.py` — slide assembly in
  `generate_content`, fallback synthesis (`_generate_fallback_slides`) and
  confidence scoring (`_calculate_confidence_score`);
* `src/chains/project_analysis_chain.py` — `_find_matches` and
  `_calculate_match_score`;
* `src/tools/template_manager.py` — `get_default_slide_specs` and
  `create_diagram_slide_spec`;
* `src/chains/orchestration_chain.py` — the `generate_presentation` control
  flow.

Python JSON-ish values are modelled by `PyVal`; dictionaries are association
lists (first binding wins, as the embedded literals have no duplicate keys).
Python `float` scores are modelled by `ℚ`. Fallible constructions (pydantic
validation, exceptions caught per item) are modelled by `Option`/`Except`.
-/

/-- A decoded JSON-like Python value, as produced by `json.loads` and passed
around the generation chains. -/
inductive PyVal where
  | vStr : String → PyVal
  | vNum : ℚ → PyVal
  | vBool : Bool → PyVal
  | vList : List PyVal → PyVal
  | vDict : List (String × PyVal) → PyVal
  | vNone : PyVal

/-- A Python dictionary with string keys, as an association list. -/
abbrev PyDict := List (String × PyVal)

/-- Python `d.get(k)`: the first binding of `k`, if any. -/
def dictLookup (d : PyDict) (k : String) : Option PyVal :=
  (d.find? (fun p => p.fst == k)).map (·.snd)

/-- Python `k in d`. -/
def hasKey (d : PyDict) (k : String) : Bool :=
  (dictLookup d k).isSome

/-- The icon classes imported from the `diagrams` library at the top of
`diagram_generator.py`; each constructor is one distinct Python class. -/
inductive IconClass where
  | APIGateway | Lambda | RDS | Dynamodb | SQS | SNS | S3 | EC2 | ECS
  | ElasticLoadBalancing | EMR | Glue | Kinesis | Redshift
  | ApplicationGateway | FunctionApps | SQLDatabases | CosmosDb | ServiceBus
  | BlobStorage | ContainerInstances | LoadBalancers | SynapseAnalytics
  | DataFactories | EventHubs
  | LoadBalancing | Functions | SQL | Firestore | Pubsub | Storage
  | ComputeEngine | KubernetesEngine | Bigquery | Dataflow
  | Pod | Service
  | PostgreSQL | MySQL | Redis | RabbitMQ
  deriving DecidableEq

/-- Lookup in one provider's icon table (Python dict indexing / `in`). -/
def iconLookup (t : List (String × IconClass)) (k : String) : Option IconClass :=
  (t.find? (fun p => p.fst == k)).map (·.snd)

/-- The `"aws"` entry of `DiagramGenerator._initialize_icon_mappings`. -/
def awsIcons : List (String × IconClass) :=
  [("api", .APIGateway), ("service", .Lambda), ("microservice", .Lambda),
   ("database", .RDS), ("nosql", .Dynamodb), ("queue", .SQS),
   ("notification", .SNS), ("storage", .S3), ("compute", .EC2),
   ("container", .ECS), ("loadbalancer", .ElasticLoadBalancing),
   ("analytics", .EMR), ("etl", .Glue), ("streaming", .Kinesis),
   ("warehouse", .Redshift)]

/-- The `"azure"` entry of `_initialize_icon_mappings`. -/
def azureIcons : List (String × IconClass) :=
  [("api", .ApplicationGateway), ("service", .FunctionApps),
   ("microservice", .FunctionApps), ("database", .SQLDatabases),
   ("nosql", .CosmosDb), ("queue", .ServiceBus), ("notification", .ServiceBus),
   ("storage", .BlobStorage), ("compute", .ContainerInstances),
   ("container", .ContainerInstances), ("loadbalancer", .LoadBalancers),
   ("analytics", .SynapseAnalytics), ("etl", .DataFactories),
   ("streaming", .EventHubs)]

/-- The `"gcp"` entry of `_initialize_icon_mappings`. -/
def gcpIcons : List (String × IconClass) :=
  [("api", .LoadBalancing), ("service", .Functions),
   ("microservice", .Functions), ("database", .SQL), ("nosql", .Firestore),
   ("queue", .Pubsub), ("notification", .Pubsub), ("storage", .Storage),
   ("compute", .ComputeEngine), ("container", .KubernetesEngine),
   ("loadbalancer", .LoadBalancing), ("analytics", .Bigquery),
   ("etl", .Dataflow), ("streaming", .Pubsub)]

/-- The `"kubernetes"` entry of `_initialize_icon_mappings`. -/
def kubernetesIcons : List (String × IconClass) :=
  [("service", .Pod), ("microservice", .Pod), ("network", .Service)]

/-- The `"onprem"` entry of `_initialize_icon_mappings`. -/
def onpremIcons : List (String × IconClass) :=
  [("database", .PostgreSQL), ("mysql", .MySQL), ("cache", .Redis),
   ("queue", .RabbitMQ)]

/-- `self.icon_mappings`, exactly as built by `_initialize_icon_mappings`. -/
def iconMappings : List (String × List (String × IconClass)) :=
  [("aws", awsIcons), ("azure", azureIcons), ("gcp", gcpIcons),
   ("kubernetes", kubernetesIcons), ("onprem", onpremIcons)]

/-- `self.icon_mappings.get(provider)`. -/
def mappingLookup (provider : String) : Option (List (String × IconClass)) :=
  (iconMappings.find? (fun p => p.fst == provider)).map (·.snd)

/-- Python `str.lower()` (over the character list; structurally recursive so
that it evaluates by reduction). -/
def pyLower (s : String) : String :=
  ⟨s.data.map Char.toLower⟩

/-- The ultimate fallback icon returned at the last line of
`_get_icon_class` (the `Lambda` class). -/
def globalFallbackIcon : IconClass := .Lambda

/-- `DiagramGenerator._get_icon_class`, translated line by line:
provider table (empty when the provider is unknown), then exact
component-type match, then lowercased icon-name match, then the provider's
`"service"` entry (defaulting to `Lambda`) when the provider is known, and
finally the global `Lambda` fallback. -/
def getIconClass (provider componentType iconName : String) : IconClass :=
  let providerIcons := (mappingLookup provider).getD []
  match iconLookup providerIcons componentType with
  | some ic => ic
  | none =>
    match iconLookup providerIcons (pyLower iconName) with
    | some ic => ic
    | none =>
      if (mappingLookup provider).isSome then
        (iconLookup providerIcons "service").getD .Lambda
      else
        .Lambda

/-- C2 counterexample: the claim is false on the code. `"aws"` is a key of
the icon-mapping table and `"service"` is present in its table, yet the
resolved icon is exactly the global fallback icon (`Lambda`), contradicting
"never to the global fallback icon". Moreover `"onprem"` is a known provider
whose table has no `"service"` entry at all, so an unmatched onprem lookup
resolves to the global fallback `Lambda`, not to a provider-designated
default service icon. -/
theorem C2_counterexample :
    (mappingLookup "aws").isSome = true ∧
    iconLookup ((mappingLookup "aws").getD []) "service" = some globalFallbackIcon ∧
    getIconClass "aws" "service" "somename" = globalFallbackIcon ∧
    (mappingLookup "onprem").isSome = true ∧
    iconLookup ((mappingLookup "onprem").getD []) "api" = none ∧
    iconLookup ((mappingLookup "onprem").getD []) "service" = none ∧
    getIconClass "onprem" "api" "unknownicon" = globalFallbackIcon := by
  decide

/-- C2 amended: for a provider that is a key of the icon-mapping table, a
component type present in that provider's table resolves to that provider's
table entry for the type (which for aws `"service"`/`"microservice"` is the
same `Lambda` class as the global fallback); when neither the component type
nor the lowercased icon name matches, the lookup falls back to the provider's
`"service"` entry when it has one and to the global fallback icon otherwise
(onprem has none); an unknown provider always resolves to the single global
fallback icon. -/
theorem C2_amended_icon_resolution (provider componentType iconName : String)
    (table : List (String × IconClass)) :
    (mappingLookup provider = some table →
      (∀ ic, iconLookup table componentType = some ic →
        getIconClass provider componentType iconName = ic) ∧
      (iconLookup table componentType = none →
        iconLookup table (pyLower iconName) = none →
        getIconClass provider componentType iconName =
          (iconLookup table "service").getD globalFallbackIcon)) ∧
    (mappingLookup provider = none →
      getIconClass provider componentType iconName = globalFallbackIcon) := by
  constructor
  · intro hm
    constructor
    · intro ic hic
      simp [getIconClass, hm, hic]
    · intro h1 h2
      simp [getIconClass, hm, h1, h2, globalFallbackIcon]
  · intro hm
    simp [getIconClass, hm, iconLookup, globalFallbackIcon]

/-- C2 witness: the amended theorem applied at concrete inputs — a known
provider with a known type (`azure`/`database` resolves to azure's own
`SQLDatabases` icon) and an unknown provider (resolves to the global
fallback). -/
theorem C2_amended_witness :
    getIconClass "azure" "database" "x" = IconClass.SQLDatabases ∧
    getIconClass "unknowncloud" "database" "x" = globalFallbackIcon :=
  ⟨((C2_amended_icon_resolution "azure" "database" "x" azureIcons).1
      (by decide)).1 IconClass.SQLDatabases (by decide),
   (C2_amended_icon_resolution "unknowncloud" "database" "x" []).2 (by decide)⟩

/-- Truthiness of a Python value (`if x:`). -/
def pyTruthy : PyVal → Bool
  | .vStr s => !(s == "")
  | .vNum q => !(q == 0)
  | .vBool b => b
  | .vList l => !l.isEmpty
  | .vDict d => !d.isEmpty
  | .vNone => false

/-- Python `d.get(k, dflt)`. -/
def pyGetD (d : PyDict) (k : String) (dflt : PyVal) : PyVal :=
  (dictLookup d k).getD dflt

/-- The component-entry check inside `_validate_diagram_spec`: the entry must
be a dict containing the keys `name`, `component_type` and `icon_provider`. -/
def isWellFormedComponent : PyVal → Bool
  | .vDict cd => hasKey cd "name" && hasKey cd "component_type" &&
      hasKey cd "icon_provider"
  | _ => false

/-- `DiagramGenerationChain._validate_diagram_spec`, translated line by line:
the three required keys must be present, the `components` value must be a
list of length at least 2, and every entry must pass the component check.
Note the code checks only that the `title` KEY exists; it never inspects the
title's value. -/
def validateDiagramSpec (d : PyDict) : Bool :=
  hasKey d "diagram_type" && hasKey d "title" && hasKey d "components" &&
  (match dictLookup d "components" with
   | some (.vList comps) =>
       decide (2 ≤ comps.length) && comps.all isWellFormedComponent
   | _ => false)

/-- The acceptance predicate as the claim states it (spec wording): a type
tag, a NON-EMPTY title, and a components list of at least 2 well-formed
entries. Stated separately so the claim can be compared with the code. -/
def claimedDiagramAcceptance (d : PyDict) : Bool :=
  hasKey d "diagram_type" &&
  (match dictLookup d "title" with
   | some (.vStr t) => !(t == "")
   | _ => false) &&
  (match dictLookup d "components" with
   | some (.vList comps) =>
       decide (2 ≤ comps.length) && comps.all isWellFormedComponent
   | _ => false)

/-- A well-formed component entry used in concrete test inputs. -/
def exComponent : PyVal :=
  .vDict [("name", .vStr "Web API"), ("component_type", .vStr "api"),
    ("icon_provider", .vStr "aws")]

/-- A proposed diagram whose title is the empty string but which otherwise
has all required keys and two well-formed components. -/
def exDiagramEmptyTitle : PyDict :=
  [("diagram_type", .vStr "microservices"), ("title", .vStr ""),
   ("components", .vList [exComponent, exComponent])]

/-- C4 counterexample: the claim's "non-empty title" conjunct is false on the
code. `_validate_diagram_spec` accepts a diagram whose `title` value is the
empty string (it checks only the presence of the `title` key), while the
claimed acceptance predicate rejects it. -/
theorem C4_counterexample :
    validateDiagramSpec exDiagramEmptyTitle = true ∧
    dictLookup exDiagramEmptyTitle "title" = some (PyVal.vStr "") ∧
    claimedDiagramAcceptance exDiagramEmptyTitle = false := by
  refine ⟨by decide, rfl, by decide⟩

/-- C4 amended: `_validate_diagram_spec` accepts a proposed diagram iff the
keys `diagram_type`, `title` and `components` are all present, the
`components` value is a list of at least 2 entries, and every entry is a
dict containing the keys `name`, `component_type` and `icon_provider`; the
title value itself (in particular its non-emptiness) is not checked. In
particular every diagram whose components list has fewer than 2 entries is
rejected. -/
theorem C4_amended_validate_iff (d : PyDict) :
    (validateDiagramSpec d = true ↔
      (hasKey d "diagram_type" = true ∧ hasKey d "title" = true ∧
       ∃ comps, dictLookup d "components" = some (PyVal.vList comps) ∧
         2 ≤ comps.length ∧ ∀ c ∈ comps, isWellFormedComponent c = true)) ∧
    (∀ comps, dictLookup d "components" = some (PyVal.vList comps) →
      comps.length < 2 → validateDiagramSpec d = false) := by
  constructor
  · unfold validateDiagramSpec
    cases h : dictLookup d "components" with
    | none => simp [h, hasKey]
    | some v =>
      cases v <;>
        simp [h, hasKey, List.all_eq_true, and_assoc]
  · intro comps hc hlen
    unfold validateDiagramSpec
    simp [hc, Nat.not_le.mpr hlen]

/-- C4 witness: the amended theorem applied at concrete inputs — a
well-formed two-component diagram is accepted, and a one-component diagram
is rejected. -/
theorem C4_amended_witness :
    validateDiagramSpec
      [("diagram_type", .vStr "data_pipeline"), ("title", .vStr "ETL Flow"),
       ("components", .vList [exComponent, exComponent])] = true ∧
    validateDiagramSpec
      [("diagram_type", .vStr "data_pipeline"), ("title", .vStr "ETL Flow"),
       ("components", .vList [exComponent])] = false :=
  ⟨(C4_amended_validate_iff _).1.mpr
      ⟨by decide, by decide, [exComponent, exComponent], rfl, by decide,
        by decide⟩,
   (C4_amended_validate_iff _).2 [exComponent] rfl (by decide)⟩

/-- Extract a Python `str`; any other value fails pydantic `str` validation
(pydantic v2 does not coerce non-strings). -/
def asStr : PyVal → Option String
  | .vStr s => some s
  | _ => none

/-- Extract a Python dict; non-dicts have no `.get` / fail dict validation. -/
def asDict : PyVal → Option PyDict
  | .vDict d => some d
  | _ => none

/-- Iterate a Python value as in `for x in v`: lists yield their elements,
dicts yield their keys, strings yield their one-character substrings; other
values are not iterable (`TypeError`). -/
def asIterList : PyVal → Option (List PyVal)
  | .vList l => some l
  | .vDict d => some (d.map (fun p => .vStr p.fst))
  | .vStr s => some (s.data.map (fun c => .vStr (String.mk [c])))
  | _ => none

/-- Optional[str] extraction: absent and `None` both give `none`; a string
gives `some`; anything else fails validation. -/
def asOptStr : Option PyVal → Option (Option String)
  | none => some none
  | some .vNone => some none
  | some (.vStr s) => some (some s)
  | some _ => none

/-- First-failure monadic map, mirroring a Python `for` loop in which the
first raised exception aborts the whole construction. -/
def optionMapM {α β : Type} (f : α → Option β) : List α → Option (List β)
  | [] => some []
  | a :: as => do
      let b ← f a
      let bs ← optionMapM f as
      pure (b :: bs)

/-- One node of an architecture diagram (`DiagramComponent` in
`data_models.py`); pydantic enforces `name` non-empty. -/
structure DiagramComponent where
  name : String
  componentType : String
  iconProvider : String
  iconName : String
  positionHint : Option String

/-- One edge of an architecture diagram (`DiagramConnection` in
`data_models.py`). -/
structure DiagramConnection where
  source : String
  target : String
  connectionType : String
  label : Option String

/-- A full diagram specification (`DiagramSpec` in `data_models.py`);
pydantic enforces `title` non-empty and 2–20 components. Instances exist
only via `createDiagramSpec`, which performs that validation. -/
structure DiagramSpec where
  diagramType : String
  title : String
  components : List DiagramComponent
  connections : List DiagramConnection
  layoutDirection : String
  clustering : List (String × List String)
  styling : PyDict

/-- Construction of one `DiagramComponent` inside
`DiagramGenerationChain._create_diagram_spec`, including the `.get` defaults
of the source and the pydantic field validation (`name` with
`min_length=1`; all tag fields must be strings; `position_hint` optional). -/
def mkDiagramComponent (c : PyVal) : Option DiagramComponent := do
  let cd ← asDict c
  let name ← asStr (pyGetD cd "name" (.vStr "Unknown"))
  let componentType ← asStr (pyGetD cd "component_type" (.vStr "service"))
  let iconProvider ← asStr (pyGetD cd "icon_provider" (.vStr "aws"))
  let iconName ← asStr
    (pyGetD cd "icon_name" (pyGetD cd "component_type" (.vStr "service")))
  let positionHint ← asOptStr (dictLookup cd "position_hint")
  if name = "" then none
  else pure ⟨name, componentType, iconProvider, iconName, positionHint⟩

/-- Construction of one `DiagramConnection` inside `_create_diagram_spec`
(`source`/`target` default to the empty string, `connection_type` to
`"arrow"`, `label` optional). -/
def mkDiagramConnection (c : PyVal) : Option DiagramConnection := do
  let cd ← asDict c
  let source ← asStr (pyGetD cd "source" (.vStr ""))
  let target ← asStr (pyGetD cd "target" (.vStr ""))
  let connectionType ← asStr (pyGetD cd "connection_type" (.vStr "arrow"))
  let label ← asOptStr (dictLookup cd "label")
  pure ⟨source, target, connectionType, label⟩

/-- Extraction of a `Dict[str, List[str]]` clustering map. -/
def asClustering (v : PyVal) : Option (List (String × List String)) := do
  let d ← asDict v
  optionMapM (fun p => do
    let l ← asIterList p.snd >>= optionMapM asStr
    pure (p.fst, l)) d

/-- `DiagramGenerationChain._create_diagram_spec`, translated line by line,
composed with the pydantic validation run by the `DiagramSpec` constructor:
components are built first (first bad component raises), then connections,
then the spec fields are validated — in particular a non-empty title and a
components list of between 2 and 20 items. Any failure yields `none`,
modelling the exception caught by the per-diagram loop of
`generate_diagram_specs`. -/
def createDiagramSpec (d : PyDict) : Option DiagramSpec := do
  let compVals ← asIterList (pyGetD d "components" (.vList []))
  let components ← optionMapM mkDiagramComponent compVals
  let connVals ← asIterList (pyGetD d "connections" (.vList []))
  let connections ← optionMapM mkDiagramConnection connVals
  let diagramType ← asStr (pyGetD d "diagram_type" (.vStr "cloud_architecture"))
  let title ← asStr (pyGetD d "title" (.vStr "Architecture Diagram"))
  if title = "" then none
  else if components.length < 2 then none
  else if 20 < components.length then none
  else do
    let layoutDirection ← asStr (pyGetD d "layout_direction" (.vStr "TB"))
    let clustering ← asClustering (pyGetD d "clustering" (.vDict []))
    let styling ← asDict (pyGetD d "styling" (.vDict []))
    pure ⟨diagramType, title, components, connections, layoutDirection,
      clustering, styling⟩

/-- The per-diagram loop of `generate_diagram_specs` (lines 253–267): each
proposed diagram is turned into a spec and rendered; a failure at either
step (modelled by `none`, for the caught exception) skips that diagram and
the loop continues. `render` stands for the external
`DiagramGenerator.generate_diagram` call. -/
def generateDiagramsLoop {α : Type} (render : DiagramSpec → Option α)
    (ds : List PyDict) : List α :=
  ds.filterMap (fun d => (createDiagramSpec d).bind render)

/-- Length preservation for `optionMapM`. -/
theorem optionMapM_length {α β : Type} (f : α → Option β) :
    ∀ (l : List α) (l' : List β), optionMapM f l = some l' →
      l'.length = l.length := by
  intro l
  induction l with
  | nil => intro l' h; simp [optionMapM] at h; simp [h]
  | cons a as ih =>
    intro l' h
    simp only [optionMapM, Option.bind_eq_some, Option.pure_def,
      Option.some.injEq, bind, exists_eq_right'] at h
    obtain ⟨b, hb, bs, hbs, rfl⟩ := h
    simp [ih bs hbs]

/-- Binding with a continuation that always fails fails. -/
theorem optionBindNone {α β : Type} (x : Option α) (f : α → Option β)
    (h : ∀ a, f a = none) : x.bind f = none := by
  cases x <;> simp [h]

/-- C5: a proposed diagram with more than 20 components never becomes a
`DiagramSpec` — construction fails the 2–20 component-count bound of the
pydantic model — so it is excluded from the generation loop's output and
never reaches the renderer, and the loop's remaining diagrams are unaffected
(the per-diagram exception is caught; nothing propagates, modelled by the
loop being a total function). -/
theorem C5_oversized_diagram_excluded {α : Type} (render : DiagramSpec → Option α)
    (d : PyDict) (comps : List PyVal) (pre post : List PyDict)
    (hc : dictLookup d "components" = some (PyVal.vList comps))
    (hlen : 20 < comps.length) :
    createDiagramSpec d = none ∧
    generateDiagramsLoop render (pre ++ d :: post) =
      generateDiagramsLoop render (pre ++ post) := by
  have hnone : createDiagramSpec d = none := by
    unfold createDiagramSpec
    simp only [pyGetD, hc, Option.getD_some, asIterList, bind, Option.some_bind]
    cases hm : optionMapM mkDiagramComponent comps with
    | none => simp
    | some l =>
      have hl : l.length = comps.length := optionMapM_length _ _ _ hm
      simp only [Option.some_bind]
      apply optionBindNone; intro connVals
      apply optionBindNone; intro connections
      apply optionBindNone; intro diagramType
      apply optionBindNone; intro title
      have h2 : ¬ (l.length < 2) := by omega
      have h20 : 20 < l.length := by omega
      by_cases ht : title = "" <;> simp [ht, h2, h20]
  refine ⟨hnone, ?_⟩
  simp [generateDiagramsLoop, List.filterMap_append, List.filterMap_cons, hnone]

/-- A proposed diagram with 21 well-formed components. -/
def exBigDiagram : PyDict :=
  [("diagram_type", .vStr "microservices"), ("title", .vStr "Big Architecture"),
   ("components", .vList (List.replicate 21 exComponent))]

/-- C5 witness: the theorem applied to a concrete 21-component diagram. -/
theorem C5_witness :
    createDiagramSpec exBigDiagram = none ∧
    generateDiagramsLoop (fun s => some s) [exBigDiagram] =
      generateDiagramsLoop (fun s => some s) [] := by
  have h := C5_oversized_diagram_excluded (fun s => some s) exBigDiagram
    (List.replicate 21 exComponent) [] [] rfl
    (by simp)
  exact ⟨h.1, h.2⟩

/-- Python `str.strip()` (leading and trailing whitespace removed; character
list form so it evaluates by reduction). -/
def pyStrip (s : String) : String :=
  ⟨((s.data.dropWhile Char.isWhitespace).reverse.dropWhile
      Char.isWhitespace).reverse⟩

/-- A slide specification (`GeneratedSlide` in `data_models.py`); pydantic
enforces `title` non-empty and `content` with at least one item. The
optional associated-diagram field is omitted: none of the embedded code
paths ever sets it. -/
structure GeneratedSlide where
  title : String
  content : List String
  layoutType : String
  notes : Option String
  deriving DecidableEq

/-- The speaker-notes addition inside
`ContentGenerationChain._calculate_confidence_score` (`slide.notes` is
optional; `None` and the empty string are falsy). -/
def noteBonus : Option String → ℚ
  | some n => if n ≠ "" ∧ 10 < (pyStrip n).length then 2/100 else 0
  | none => 0

/-- The per-slide content-quality additions of
`ContentGenerationChain._calculate_confidence_score` (title length, content
item count and note length bonuses). -/
def slideQualityBonus (s : GeneratedSlide) : ℚ :=
  (if s.title ≠ "" ∧ 5 < (pyStrip s.title).length then 5/100 else 0) +
  (if s.content ≠ [] ∧ 2 ≤ s.content.length then 5/100 else 0) +
  noteBonus s.notes

/-- `ContentGenerationChain._calculate_confidence_score`, translated line by
line. `metadata` is `generation_data.get("presentation_metadata", {})`; when
that value is not a dict the Python code raises before producing any score
(the exception is handled on the `generate_content` fallback path), so the
function is stated over the dict case. -/
def calculateContentConfidence (slides : List GeneratedSlide)
    (metadata : PyDict) : ℚ :=
  let score : ℚ := 0
  let score := score + (if slides ≠ [] then 3/10 else 0)
  let score := score +
    (if 5 ≤ slides.length ∧ slides.length ≤ 10 then 2/10
     else if 3 ≤ slides.length ∧ slides.length ≤ 15 then 1/10 else 0)
  let score := score + (slides.map slideQualityBonus).sum
  let score := score +
    (if pyTruthy (pyGetD metadata "presentation_flow" .vNone) then 1/10 else 0)
  let score := score +
    (if pyTruthy (pyGetD metadata "key_messages" .vNone) then 1/10 else 0)
  min score 1

/-- The per-diagram complexity-appropriateness addition of
`DiagramGenerationChain._calculate_confidence_score` (`n` is the number of
components of one generated diagram's spec). -/
def diagramSizeBonus (n : ℕ) : ℚ :=
  if 5 ≤ n ∧ n ≤ 15 then 5/100
  else if 3 ≤ n ∧ n ≤ 20 then 2/100
  else 0

/-- `DiagramGenerationChain._calculate_confidence_score`, translated line by
line. `componentCounts` lists `len(diagram.spec.components)` for each
generated diagram; `technicalConfidence` is the numeric value of
`metadata.get("technical_confidence", 0.5)`, supplied by the LLM response. -/
def calculateDiagramConfidence (componentCounts : List ℕ)
    (technicalConfidence : ℚ) : ℚ :=
  let score : ℚ := 0
  let score := score + (if componentCounts ≠ [] then 4/10 else 0)
  let score := score + (if 1 ≤ componentCounts.length then 2/10 else 0)
  let score := score + (if 2 ≤ componentCounts.length then 1/10 else 0)
  let score := score + technicalConfidence * (3/10)
  let score := score + (componentCounts.map diagramSizeBonus).sum
  min score 1

/-- C3 counterexample: the claim is false on the code. The diagram-chain
score adds `technical_confidence * 0.3` with no lower clamp (`min(score,
1.0)` clamps only from above), so an LLM-supplied `technical_confidence` of
-1 with zero generated diagrams yields the score -3/10, outside [0, 1]. -/
theorem C3_counterexample :
    calculateDiagramConfidence [] (-1) = -3/10 ∧
    calculateDiagramConfidence [] (-1) < 0 := by
  constructor <;> norm_num [calculateDiagramConfidence]

/-- Each per-slide bonus is non-negative. -/
theorem slideQualityBonus_nonneg (s : GeneratedSlide) :
    0 ≤ slideQualityBonus s := by
  unfold slideQualityBonus
  have h1 : (0:ℚ) ≤ if s.title ≠ "" ∧ 5 < (pyStrip s.title).length
      then 5/100 else 0 := by split <;> norm_num
  have h2 : (0:ℚ) ≤ if s.content ≠ [] ∧ 2 ≤ s.content.length
      then 5/100 else 0 := by split <;> norm_num
  have h3 : ∀ o : Option String, (0:ℚ) ≤ noteBonus o := by
    intro o
    cases o with
    | none => norm_num [noteBonus]
    | some n => simp only [noteBonus]; split <;> norm_num
  have := h3 s.notes
  linarith

/-- Each per-diagram bonus is non-negative. -/
theorem diagramSizeBonus_nonneg (n : ℕ) : 0 ≤ diagramSizeBonus n := by
  unfold diagramSizeBonus
  split <;> [norm_num; split <;> norm_num]

/-- C3 amended: the content-chain confidence score is always within [0, 1];
the diagram-chain confidence score is always at most 1, and it is
non-negative (hence within [0, 1]) whenever the LLM-supplied
`technical_confidence` value is non-negative — but not in general (see the
counterexample). -/
theorem C3_amended_confidence_bounds :
    (∀ (slides : List GeneratedSlide) (metadata : PyDict),
      0 ≤ calculateContentConfidence slides metadata ∧
      calculateContentConfidence slides metadata ≤ 1) ∧
    (∀ (counts : List ℕ) (tc : ℚ), calculateDiagramConfidence counts tc ≤ 1) ∧
    (∀ (counts : List ℕ) (tc : ℚ), 0 ≤ tc →
      0 ≤ calculateDiagramConfidence counts tc) := by
  refine ⟨fun slides metadata => ⟨?_, min_le_right _ _⟩,
    fun counts tc => min_le_right _ _, fun counts tc htc => ?_⟩
  · unfold calculateContentConfidence
    have hsum : 0 ≤ (slides.map slideQualityBonus).sum := by
      apply List.sum_nonneg
      intro x hx
      obtain ⟨s, _, rfl⟩ := List.mem_map.mp hx
      exact slideQualityBonus_nonneg s
    have h1 : (0:ℚ) ≤ if slides ≠ [] then 3/10 else 0 := by split <;> norm_num
    have h2 : (0:ℚ) ≤ if 5 ≤ slides.length ∧ slides.length ≤ 10 then 2/10
        else if 3 ≤ slides.length ∧ slides.length ≤ 15 then 1/10 else 0 := by
      split <;> [norm_num; split <;> norm_num]
    have h3 : (0:ℚ) ≤ if pyTruthy (pyGetD metadata "presentation_flow" .vNone)
        then 1/10 else 0 := by split <;> norm_num
    have h4 : (0:ℚ) ≤ if pyTruthy (pyGetD metadata "key_messages" .vNone)
        then 1/10 else 0 := by split <;> norm_num
    have : (0:ℚ) ≤ 1 := by norm_num
    apply le_min _ this
    linarith
  · unfold calculateDiagramConfidence
    have hsum : 0 ≤ (counts.map diagramSizeBonus).sum := by
      apply List.sum_nonneg
      intro x hx
      obtain ⟨n, _, rfl⟩ := List.mem_map.mp hx
      exact diagramSizeBonus_nonneg n
    have h1 : (0:ℚ) ≤ if counts ≠ [] then 4/10 else 0 := by split <;> norm_num
    have h2 : (0:ℚ) ≤ if 1 ≤ counts.length then 2/10 else 0 := by
      split <;> norm_num
    have h3 : (0:ℚ) ≤ if 2 ≤ counts.length then 1/10 else 0 := by
      split <;> norm_num
    have h5 : (0:ℚ) ≤ tc * (3/10) := by positivity
    have : (0:ℚ) ≤ 1 := by norm_num
    apply le_min _ this
    linarith

/-- C3 witness: the amended theorem applied at concrete inputs (no slides,
empty metadata, no diagrams, technical confidence 1/2 ≥ 0). -/
theorem C3_amended_witness :
    (0 ≤ calculateContentConfidence [] [] ∧
      calculateContentConfidence [] [] ≤ 1) ∧
    calculateDiagramConfidence [] (1/2) ≤ 1 ∧
    0 ≤ calculateDiagramConfidence [] (1/2) :=
  ⟨C3_amended_confidence_bounds.1 [] [],
   C3_amended_confidence_bounds.2.1 [] (1/2),
   C3_amended_confidence_bounds.2.2 [] (1/2) (by norm_num)⟩

/-- One match record produced by `ProjectAnalysisChain._find_matches`. -/
structure AnalysisMatch where
  required : String
  available : String
  matchType : String
  confidence : ℚ
  deriving DecidableEq

/-- Python substring containment `a in b`. -/
def pySubstr (a b : String) : Bool :=
  decide (a.data <:+: b.data)

/-- The two-tier comparison inside `_find_matches`: case-insensitive exact
equality gives confidence 1.0, substring containment either direction gives
confidence 0.7, otherwise no match. -/
def matchFor (required available : String) : Option AnalysisMatch :=
  let requiredLower := pyLower required
  let availableLower := pyLower available
  if requiredLower = availableLower then
    some ⟨required, available, "exact", 1⟩
  else if pySubstr requiredLower availableLower ||
      pySubstr availableLower requiredLower then
    some ⟨required, available, "partial", 7/10⟩
  else none

/-- `ProjectAnalysisChain._find_matches`: the nested loops over required and
available items, appending one match record per comparison that matches. -/
def findMatches (requiredItems availableItems : List String) :
    List AnalysisMatch :=
  requiredItems.flatMap (fun r => availableItems.filterMap (fun a => matchFor r a))

/-- `ProjectAnalysisChain._calculate_match_score`, translated line by line:
0.0 when both match lists are empty, otherwise the average of the two
per-side scores, each being the sum of that side's confidences divided by
`max(len, 1)`. -/
def calculateMatchScore (techMatches approachMatches : List AnalysisMatch) : ℚ :=
  if techMatches = [] ∧ approachMatches = [] then 0
  else
    let techScore := (techMatches.map (·.confidence)).sum /
      ((max techMatches.length 1 : ℕ) : ℚ)
    let approachScore := (approachMatches.map (·.confidence)).sum /
      ((max approachMatches.length 1 : ℕ) : ℚ)
    (techScore + approachScore) / 2

/-- One side's score as the claim describes it: the mean of the side's match
confidences taken over the matches found; an empty match list gives 0. -/
def sideScore (l : List AnalysisMatch) : ℚ :=
  (l.map (·.confidence)).sum / ((max l.length 1 : ℕ) : ℚ)

/-- C7: `_calculate_match_score` returns 0.0 when both match lists are
empty, and in every case equals the average of the two per-side scores,
where each side's score is the mean of that side's confidences over the
matches found (division by the number of matches, not of candidates) and an
empty match list contributes 0 to its side of the average rather than being
skipped. -/
theorem C7_match_score_average (tech approach : List AnalysisMatch) :
    calculateMatchScore [] [] = 0 ∧
    sideScore [] = 0 ∧
    calculateMatchScore tech approach = (sideScore tech + sideScore approach) / 2 := by
  refine ⟨by norm_num [calculateMatchScore], by norm_num [sideScore], ?_⟩
  unfold calculateMatchScore sideScore
  by_cases h : tech = [] ∧ approach = []
  · obtain ⟨h1, h2⟩ := h
    subst h1
    subst h2
    norm_num
  · rw [if_neg h]

/-- A rendered edge produced by `DiagramGenerator._create_connections`:
`source - target` for bidirectional connections, `source >> target`
otherwise. -/
inductive RenderedEdge where
  | directed : String → String → RenderedEdge
  | twoWay : String → String → RenderedEdge
  deriving DecidableEq

/-- One iteration of the `_create_connections` loop: the resolved component
mapping (here, its set of component names) is probed with `.get` for the
connection's source and target; when both are present exactly one edge is
rendered (two-way iff the connection type is `"bidirectional"`), otherwise
the connection is dropped with a log message and no exception. -/
def edgesForConnection (componentNames : List String) (c : DiagramConnection) :
    List RenderedEdge :=
  if componentNames.contains c.source && componentNames.contains c.target then
    if c.connectionType = "bidirectional" then [.twoWay c.source c.target]
    else [.directed c.source c.target]
  else []

/-- `DiagramGenerator._create_connections`: the loop over all connection
specifications, concatenating each connection's rendered edges. -/
def createConnections (componentNames : List String)
    (connections : List DiagramConnection) : List RenderedEdge :=
  connections.flatMap (edgesForConnection componentNames)

/-- C8: a connection whose source and target both name present components
produces exactly one rendered edge — a two-way edge when its kind is
`"bidirectional"`, otherwise one directed edge from source to target — while
a connection naming any absent component produces zero edges (and no
exception: the loop is total and processes the remaining connections
unchanged). -/
theorem C8_connection_rendering (names : List String) (c : DiagramConnection)
    (conns : List DiagramConnection) :
    (c.source ∈ names → c.target ∈ names →
      edgesForConnection names c =
        [if c.connectionType = "bidirectional"
         then RenderedEdge.twoWay c.source c.target
         else RenderedEdge.directed c.source c.target] ∧
      (edgesForConnection names c).length = 1) ∧
    (c.source ∉ names ∨ c.target ∉ names → edgesForConnection names c = []) ∧
    createConnections names (c :: conns) =
      edgesForConnection names c ++ createConnections names conns := by
  refine ⟨fun hs ht => ?_, fun habs => ?_, ?_⟩
  · have hb : (names.contains c.source && names.contains c.target) = true := by
      simp [hs, ht]
    constructor
    · unfold edgesForConnection
      rw [if_pos hb]
      split <;> simp_all
    · unfold edgesForConnection
      rw [if_pos hb]
      split <;> rfl
  · unfold edgesForConnection
    have hb : ¬ ((names.contains c.source && names.contains c.target) = true) := by
      rcases habs with h | h <;> simp [h]
    rw [if_neg hb]
  · simp [createConnections, List.flatMap_cons]

/-- C8 witness: the theorem applied at a concrete component set — a
bidirectional connection between two present components renders exactly one
two-way edge, and a connection to an absent component renders nothing. -/
theorem C8_witness :
    edgesForConnection ["API Gateway", "User Service"]
      ⟨"API Gateway", "User Service", "bidirectional", none⟩ =
      [RenderedEdge.twoWay "API Gateway" "User Service"] ∧
    edgesForConnection ["API Gateway", "User Service"]
      ⟨"API Gateway", "Database", "arrow", none⟩ = [] := by
  constructor
  · have h := (C8_connection_rendering ["API Gateway", "User Service"]
      ⟨"API Gateway", "User Service", "bidirectional", none⟩ []).1
      (by simp) (by simp)
    simpa using h.1
  · exact (C8_connection_rendering ["API Gateway", "User Service"]
      ⟨"API Gateway", "Database", "arrow", none⟩ []).2.1
      (Or.inr (by simp))

/-- pydantic `List[str]` extraction: the value must be a list whose items
are all strings. -/
def asPyList : PyVal → Option (List PyVal)
  | .vList l => some l
  | _ => none

/-- Construction of a `GeneratedSlide` through its pydantic validation
(`title` with `min_length=1`, `content` with `min_items=1`); `none` models
the raised `ValidationError`. -/
def mkGeneratedSlide (title : String) (content : List String)
    (layoutType : String) (notes : Option String) : Option GeneratedSlide :=
  if title = "" then none
  else if content = [] then none
  else some ⟨title, content, layoutType, notes⟩

/-- `TemplateManager.get_optimal_layout_for_diagram`, translated line by
line; `layoutMapping` is the key set of `self._layout_mapping`. -/
def getOptimalLayoutForDiagram (layoutMapping : List String)
    (diagramType : String) (hasContent : Bool) : String :=
  if !hasContent then
    match ["blank", "diagram", "title_content", "bullet"].find?
        (fun l => layoutMapping.contains l) with
    | some l => l
    | none => "bullet"
  else
    let preferences := [("microservices", "split"), ("data_pipeline", "two_content"),
      ("cloud_architecture", "split"), ("database_schema", "picture_caption")]
    let preferred := (((preferences.find? (fun p => p.fst == diagramType)).map
      (·.snd)).getD "two_content")
    if !layoutMapping.contains preferred then
      if layoutMapping.contains "two_content" then "two_content" else "bullet"
    else preferred

/-- `TemplateManager.create_diagram_slide_spec`, translated line by line: it
selects a dedicated-diagram layout and then constructs a `GeneratedSlide`
with `content=[]` ("No text content for dedicated diagram slides"). -/
def createDiagramSlideSpec (layoutMapping : List String)
    (diagramType diagramTitle : String) : Option GeneratedSlide :=
  let layoutType := getOptimalLayoutForDiagram layoutMapping diagramType false
  mkGeneratedSlide diagramTitle [] layoutType
    (some ("Architecture diagram showing " ++ diagramType ++
      " components and their relationships."))

/-- C9: the `GeneratedSlide` type does reject an empty content list
(`min_items=1`), and precisely because of that,
`TemplateManager.create_diagram_slide_spec` — which always passes
`content=[]` — never yields a slide at all: for every layout mapping,
diagram type and title the construction fails (the Python call raises
`ValidationError`), contradicting the claim that it yields slides with a
non-empty bullet list. -/
theorem C9_diagram_slide_spec_always_fails (layoutMapping : List String)
    (diagramType diagramTitle : String) (t lt : String) (n : Option String) :
    mkGeneratedSlide t [] lt n = none ∧
    createDiagramSlideSpec layoutMapping diagramType diagramTitle = none := by
  constructor
  · unfold mkGeneratedSlide
    by_cases h : t = "" <;> simp [h]
  · unfold createDiagramSlideSpec mkGeneratedSlide
    by_cases h : diagramTitle = "" <;> simp [h]

/-- The project title handed to `get_default_slide_specs` by
`_generate_fallback_slides`: `project.description[:50] + "..."`. -/
def fallbackTitle (description : String) : String :=
  ⟨description.data.take 50⟩ ++ "..."

/-- `TemplateManager.get_default_slide_specs`, translated line by line: the
five default slides, each passing through `GeneratedSlide` validation. -/
def getDefaultSlideSpecs (projectTitle clientName : String) :
    Option (List GeneratedSlide) := do
  let s1 ← mkGeneratedSlide projectTitle
    ["Proposal for " ++ clientName, "Prepared by Keyrus"] "title"
    (some "Opening slide with project title and client information")
  let s2 ← mkGeneratedSlide "Executive Summary"
    ["Project overview and objectives", "Key benefits and value proposition",
     "High-level approach and methodology", "Expected outcomes and deliverables"]
    "bullet" (some "High-level overview of the project proposal")
  let s3 ← mkGeneratedSlide "Technical Approach"
    ["Solution architecture overview", "Technology stack and tools",
     "Implementation methodology", "Integration considerations"]
    "bullet" (some "Detailed technical approach and methodology")
  let s4 ← mkGeneratedSlide "Project Timeline"
    ["Phase 1: Planning and Design", "Phase 2: Development and Implementation",
     "Phase 3: Testing and Deployment", "Phase 4: Go-live and Support"]
    "bullet" (some "High-level project phases and timeline")
  let s5 ← mkGeneratedSlide "Next Steps"
    ["Project kick-off and team formation", "Detailed requirements gathering",
     "Technical architecture finalization", "Contract and timeline confirmation"]
    "bullet" (some "Immediate next steps for project initiation")
  pure [s1, s2, s3, s4, s5]

/-- One generic filler slide of `_generate_fallback_slides` (index `i`). -/
def additionalSlide (i : ℕ) : Option GeneratedSlide :=
  mkGeneratedSlide ("Additional Topic " ++ toString (i + 1))
    ["Key point to be developed", "Supporting information",
     "Benefits and implications"] "bullet"
    (some "This slide requires further customization based on project specifics")

/-- `ContentGenerationChain._generate_fallback_slides`, translated line by
line: the five default slides, truncated to `count` when `count` is small
enough, otherwise extended with generic filler slides. -/
def generateFallbackSlides (description clientName : String) (count : ℕ) :
    Option (List GeneratedSlide) := do
  let defaultSlides ← getDefaultSlideSpecs (fallbackTitle description) clientName
  if count ≤ defaultSlides.length then
    pure (defaultSlides.take count)
  else do
    let additional ← optionMapM additionalSlide
      (List.range (count - defaultSlides.length))
    pure (defaultSlides ++ additional)

/-- A string with a non-empty suffix appended is non-empty. -/
theorem fallbackTitle_ne_empty (description : String) :
    fallbackTitle description ≠ "" := by
  unfold fallbackTitle
  intro h
  have hd := congrArg String.data h
  simp [String.data_append] at hd

/-- `optionMapM` over an everywhere-successful function is `List.map`. -/
theorem optionMapM_eq_map {α β : Type} (f : α → Option β) (g : α → β)
    (h : ∀ a, f a = some (g a)) (l : List α) :
    optionMapM f l = some (l.map g) := by
  induction l with
  | nil => rfl
  | cons a as ih => simp [optionMapM, h a, ih, bind]

/-- The default slide set always exists when the project title is non-empty,
and it has exactly five slides. -/
theorem getDefaultSlideSpecs_spec (projectTitle clientName : String)
    (hpt : projectTitle ≠ "") :
    ∃ ds, getDefaultSlideSpecs projectTitle clientName = some ds ∧
      ds.length = 5 := by
  unfold getDefaultSlideSpecs mkGeneratedSlide
  simp [hpt, bind]

/-- Shape of `_generate_fallback_slides`: it always succeeds and returns
exactly `count` slides — the first `min(count, 5)` drawn from the default
set, followed by `count - 5` generic filler slides when `count > 5`. -/
theorem generateFallbackSlides_spec (description clientName : String)
    (count : ℕ) :
    ∃ ds, getDefaultSlideSpecs (fallbackTitle description) clientName = some ds ∧
      ds.length = 5 ∧
      ((count ≤ 5 →
        generateFallbackSlides description clientName count = some (ds.take count)) ∧
       (5 < count → ∃ add, add.length = count - 5 ∧
        generateFallbackSlides description clientName count = some (ds ++ add))) := by
  obtain ⟨ds, hds, hlen⟩ := getDefaultSlideSpecs_spec (fallbackTitle description)
    clientName (fallbackTitle_ne_empty description)
  refine ⟨ds, hds, hlen, ?_, ?_⟩
  · intro hle
    unfold generateFallbackSlides
    rw [hds]
    simp [bind, hlen, hle]
  · intro hgt
    unfold generateFallbackSlides
    rw [hds]
    have hnle : ¬ (count ≤ ds.length) := by omega
    have hadd := optionMapM_eq_map additionalSlide
      (fun i => ⟨"Additional Topic " ++ toString (i + 1),
        ["Key point to be developed", "Supporting information",
         "Benefits and implications"], "bullet",
        some "This slide requires further customization based on project specifics"⟩)
      (fun i => by
        unfold additionalSlide mkGeneratedSlide
        have hne : "Additional Topic " ++ toString (i + 1) ≠ "" := by
          intro h
          have hd := congrArg String.data h
          simp [String.data_append] at hd
        simp [hne])
      (List.range (count - ds.length))
    refine ⟨(List.range (count - ds.length)).map
      (fun i => ⟨"Additional Topic " ++ toString (i + 1),
        ["Key point to be developed", "Supporting information",
         "Benefits and implications"], "bullet",
        some "This slide requires further customization based on project specifics"⟩),
      ?_, ?_⟩
    · simp [List.length_map, List.length_range, hlen]
    · simp [bind, hnle, hadd]

/-- Total slide count of `_generate_fallback_slides` is exactly `count`. -/
theorem generateFallbackSlides_length (description clientName : String)
    (count : ℕ) :
    ∃ l, generateFallbackSlides description clientName count = some l ∧
      l.length = count := by
  obtain ⟨ds, _, hlen, hle, hgt⟩ :=
    generateFallbackSlides_spec description clientName count
  by_cases h : count ≤ 5
  · refine ⟨ds.take count, hle h, ?_⟩
    simp [List.length_take, hlen]
    omega
  · obtain ⟨add, haddlen, heq⟩ := hgt (by omega)
    refine ⟨ds ++ add, heq, ?_⟩
    simp [List.length_append, hlen, haddlen]
    omega

/-- Construction of one `GeneratedSlide` from one parsed slide entry inside
the `generate_content` loop, including the `.get` defaults of the source and
the pydantic validation; `none` models the exception caught by the loop's
`except`, which drops the entry. -/
def mkSlideFromData (sd : PyDict) : Option GeneratedSlide := do
  let title ← asStr (pyGetD sd "title" (.vStr "Untitled Slide"))
  let contentVals ← asPyList
    (pyGetD sd "content" (.vList [.vStr "No content generated"]))
  let content ← optionMapM asStr contentVals
  let layoutType ← asStr (pyGetD sd "layout_type" (.vStr "bullet"))
  let notes ← asOptStr (some (pyGetD sd "notes" (.vStr "")))
  mkGeneratedSlide title content layoutType notes

/-- The slide-assembly section of `ContentGenerationChain.generate_content`
(lines 176–196): parsed entries are constructed and invalid ones dropped;
if fewer than 3 slides result, fallback slides are appended (the count is
`max(3 - len, 0)`, which inside the branch equals `3 - len`); if more than
`settings.max_slides` remain, the list is truncated by slicing. -/
def generateContentSlides (description clientName : String) (maxSlides : ℕ)
    (parsedSlides : List PyDict) : Option (List GeneratedSlide) := do
  let slides := parsedSlides.filterMap mkSlideFromData
  let slides ←
    if slides.length < 3 then do
      let fb ← generateFallbackSlides description clientName (3 - slides.length)
      pure (slides ++ fb)
    else pure slides
  pure (if maxSlides < slides.length then slides.take maxSlides else slides)

/-- C1: on the non-exception path of `generate_content`, for every list of
parsed slide entries (yielding any number of valid slides: 0, 1, 2, 3, 20,
…) the resulting slide list satisfies `3 ≤ len ≤ settings.max_slides`
(the settings field enforces `max_slides ≥ 3`): when fewer than 3 valid
slides are parsed, fallback slides are appended to reach exactly 3, and
otherwise the valid slides are truncated to the first `max_slides` in
original order. -/
theorem C1_slide_count_bounds (description clientName : String)
    (maxSlides : ℕ) (parsedSlides : List PyDict) (hmax : 3 ≤ maxSlides) :
    ∃ slides,
      generateContentSlides description clientName maxSlides parsedSlides =
        some slides ∧
      3 ≤ slides.length ∧ slides.length ≤ maxSlides ∧
      ((parsedSlides.filterMap mkSlideFromData).length < 3 →
        ∃ fb, slides = parsedSlides.filterMap mkSlideFromData ++ fb ∧
          slides.length = 3) ∧
      (3 ≤ (parsedSlides.filterMap mkSlideFromData).length →
        slides = (parsedSlides.filterMap mkSlideFromData).take maxSlides) := by
  set valid := parsedSlides.filterMap mkSlideFromData with hvalid
  by_cases hlt : valid.length < 3
  · obtain ⟨fb, hfb, hfblen⟩ :=
      generateFallbackSlides_length description clientName (3 - valid.length)
    have hlen3 : (valid ++ fb).length = 3 := by
      simp [List.length_append, hfblen]
      omega
    have hnt : ¬ (maxSlides < (valid ++ fb).length) := by omega
    refine ⟨valid ++ fb, ?_, by omega, by omega, fun _ => ⟨fb, rfl, hlen3⟩,
      fun hge => by omega⟩
    unfold generateContentSlides
    rw [← hvalid, if_pos hlt, hfb]
    simp only [bind, Option.some_bind, Option.pure_def, Option.some.injEq]
    rw [if_neg hnt]
  · have hge : 3 ≤ valid.length := by omega
    by_cases htr : maxSlides < valid.length
    · have hlentake : (valid.take maxSlides).length = maxSlides := by
        simp [List.length_take]
        omega
      refine ⟨valid.take maxSlides, ?_, by omega, by omega,
        fun h => by omega, fun _ => rfl⟩
      unfold generateContentSlides
      rw [← hvalid, if_neg hlt]
      simp only [bind, Option.some_bind, Option.pure_def, Option.some.injEq]
      rw [if_pos htr]
    · have heq : valid.take maxSlides = valid :=
        List.take_of_length_le (by omega)
      refine ⟨valid, ?_, by omega, by omega, fun h => by omega,
        fun _ => heq.symm⟩
      unfold generateContentSlides
      rw [← hvalid, if_neg hlt]
      simp only [bind, Option.some_bind, Option.pure_def, Option.some.injEq]
      rw [if_neg htr]

/-- C1 witness: the theorem applied at a concrete input — no valid parsed
slides and the default `max_slides` of 15 — yields exactly 3 slides. -/
theorem C1_witness :
    ∃ slides,
      generateContentSlides "Cloud data platform build" "Acme" 15 [] =
        some slides ∧
      3 ≤ slides.length ∧ slides.length ≤ 15 ∧ slides.length = 3 := by
  obtain ⟨slides, h1, h2, h3, h4, _⟩ :=
    C1_slide_count_bounds "Cloud data platform build" "Acme" 15 []
      (by norm_num)
  obtain ⟨fb, _, hlen⟩ := h4 (by simp)
  exact ⟨slides, h1, h2, h3, hlen⟩

/-- The result record of `generate_content` (`ContentGenerationResult` in
`data_models.py`). -/
structure ContentGenerationResult where
  slides : List GeneratedSlide
  generationMetadata : PyDict
  confidenceScore : ℚ

/-- `ContentGenerationResult` construction through its pydantic validation
(`confidence_score` with `ge=0.0, le=1.0`). -/
def mkContentGenerationResult (slides : List GeneratedSlide) (md : PyDict)
    (conf : ℚ) : Option ContentGenerationResult :=
  if 0 ≤ conf ∧ conf ≤ 1 then some ⟨slides, md, conf⟩ else none

/-- `ContentGenerationChain.generate_content` as a whole: `llmOutcome` is
the combined outcome of the LLM invocation and JSON extraction — `.ok`
carries the validated slide entries of `generation_data["slides"]` together
with `generation_data.get("presentation_metadata", \x7b\x7d)`, while
`.error` is any exception reaching the outer `except` handler, which
returns the fallback result with `target_slide_count` slides, the error
under `generation_metadata`, and confidence 0.3 — with no truncation to
`settings.max_slides` on that path. -/
def generateContent (description clientName : String)
    (maxSlides targetSlideCount : ℕ)
    (llmOutcome : Except String (List PyDict × PyDict)) :
    Option ContentGenerationResult :=
  match llmOutcome with
  | .ok (parsedSlides, metadata) => do
      let slides ← generateContentSlides description clientName maxSlides
        parsedSlides
      mkContentGenerationResult slides metadata
        (calculateContentConfidence slides metadata)
  | .error e => do
      let fallbackSlides ← generateFallbackSlides description clientName
        targetSlideCount
      mkContentGenerationResult fallbackSlides [("error", .vStr e)] (3/10)

/-- C10: when the LLM invocation inside `generate_content` raises, the
returned result has exactly `target_slide_count` fallback slides — the
first up-to-five drawn from the default slide set, the remainder generic
filler slides — confidence score 0.3, and the error message recorded in
`generation_metadata`; on this path the slide count is not truncated to
`settings.max_slides` and exceeds it whenever `target_slide_count` does. -/
theorem C10_llm_failure_returns_target_fallback (description clientName : String)
    (maxSlides targetSlideCount : ℕ) (e : String) :
    ∃ r, generateContent description clientName maxSlides targetSlideCount
        (.error e) = some r ∧
      r.slides.length = targetSlideCount ∧
      r.confidenceScore = 3/10 ∧
      r.generationMetadata = [("error", .vStr e)] ∧
      (∃ ds, getDefaultSlideSpecs (fallbackTitle description) clientName =
          some ds ∧ ds.length = 5 ∧
        (targetSlideCount ≤ 5 → r.slides = ds.take targetSlideCount) ∧
        (5 < targetSlideCount → ∃ add, add.length = targetSlideCount - 5 ∧
          r.slides = ds ++ add)) ∧
      (maxSlides < targetSlideCount → maxSlides < r.slides.length) := by
  obtain ⟨ds, hds, hdslen, hle, hgt⟩ :=
    generateFallbackSlides_spec description clientName targetSlideCount
  by_cases h5 : targetSlideCount ≤ 5
  · have hfb := hle h5
    have hlen : (ds.take targetSlideCount).length = targetSlideCount := by
      simp [List.length_take]
      omega
    refine ⟨⟨ds.take targetSlideCount, [("error", .vStr e)], 3/10⟩, ?_, hlen,
      rfl, rfl, ⟨ds, hds, hdslen, fun _ => rfl, fun hc => by omega⟩,
      fun hm => by simp [hlen]; omega⟩
    unfold generateContent
    rw [hfb]
    simp [bind, mkContentGenerationResult]
    norm_num
  · obtain ⟨add, haddlen, hfb⟩ := hgt (by omega)
    have hlen : (ds ++ add).length = targetSlideCount := by
      simp [List.length_append, hdslen, haddlen]
      omega
    refine ⟨⟨ds ++ add, [("error", .vStr e)], 3/10⟩, ?_, hlen, rfl, rfl,
      ⟨ds, hds, hdslen, fun hc => by omega, fun _ => ⟨add, haddlen, rfl⟩⟩,
      fun hm => by simp [hlen]; omega⟩
    unfold generateContent
    rw [hfb]
    simp [bind, mkContentGenerationResult]
    norm_num

/-- C10 witness: the theorem applied at a concrete input — target 20 slides
with `max_slides` 15 — gives 20 fallback slides, exceeding the maximum. -/
theorem C10_witness :
    ∃ r, generateContent "Cloud data platform build" "Acme" 15 20
        (.error "LLM unavailable") = some r ∧
      r.slides.length = 20 ∧ r.confidenceScore = 3/10 ∧
      r.generationMetadata = [("error", .vStr "LLM unavailable")] ∧
      15 < r.slides.length := by
  obtain ⟨r, h1, h2, h3, h4, _, h6⟩ :=
    C10_llm_failure_returns_target_fallback "Cloud data platform build"
      "Acme" 15 20 "LLM unavailable"
  exact ⟨r, h1, h2, h3, h4, h6 (by norm_num)⟩

/-- Python `int()` truncation toward zero of a rational. -/
def pyInt (q : ℚ) : ℤ :=
  if q < 0 then -Int.floor (-q) else Int.floor q

/-- The pipeline-progress record (`ProcessingStatus` in `data_models.py`). -/
structure ProcessingStatus where
  status : String
  progress : ℚ
  message : String
  error : Option String
  currentStep : String
  totalSteps : ℕ
  completedSteps : ℤ

/-- `PowerPointOrchestrationChain._update_status`: builds the new status
record with `current_step = message`, `total_steps = 6` and
`completed_steps = int(progress * 6)`. Every call site passes a progress
constant within [0, 1], so the record's pydantic bounds always hold. -/
def updateStatus (status : String) (progress : ℚ) (message : String)
    (error : Option String) : ProcessingStatus :=
  ⟨status, progress, message, error, message, 6, pyInt (progress * 6)⟩

/-- The environment of one `generate_presentation` call: the outcome of each
external stage call (`.error` models a raised exception) and the optional
progress callback, which itself may raise when invoked. -/
structure OrchestratorEnv where
  processDocsOutcome : Except String ℕ
  docAnalysisOutcome : Except String Unit
  projAnalysisOutcome : Except String Unit
  enableDiagramGeneration : Bool
  diagramGenOutcome : Except String (List ℕ)
  contentGenOutcome : Except String (List GeneratedSlide × ℚ)
  buildOutcome : Except String String
  insertOutcome : Except String Unit
  callback : Option (ProcessingStatus → Except String Unit)

/-- The dictionary returned by `generate_presentation`: the keys relevant to
the claim (`success`, `error`, `processing_status`), the output path, and
the summary counts; keys absent from the failure dictionary are modelled by
`none`/0. -/
structure OrchestrationResult where
  success : Bool
  errorMessage : Option String
  presentationPath : Option String
  extractedContentCount : ℕ
  finalSlideCount : ℕ
  diagramCount : ℕ
  confidenceScore : ℚ
  processingStatus : ProcessingStatus

/-- One `if progress_callback: progress_callback(self.current_status)` call
site; a raising callback raises here. -/
def notifyCb (cb? : Option (ProcessingStatus → Except String Unit))
    (st : ProcessingStatus) : Except String Unit :=
  match cb? with
  | some cb => cb st
  | none => .ok ()

/-- The `try` body of `PowerPointOrchestrationChain.generate_presentation`
(lines 82–195), translated stage by stage with the source's status
transitions: document processing and both analyses are required (a raised
exception aborts the body), diagram generation is wrapped in its own
`try/except` (a failure degrades to an empty diagram list), content
generation and presentation building are required, and diagram insertion is
again best-effort. -/
def orchestrationBody (env : OrchestratorEnv) :
    Except String OrchestrationResult := do
  let st1 := updateStatus "processing_documents" (1/10)
    "Processing uploaded documents..." none
  notifyCb env.callback st1
  let extractedCount ← env.processDocsOutcome
  let st2 := updateStatus "analyzing_documents" (2/10)
    "Analyzing document content..." none
  notifyCb env.callback st2
  let _ ← env.docAnalysisOutcome
  let st3 := updateStatus "analyzing_project" (3/10)
    "Analyzing project requirements..." none
  notifyCb env.callback st3
  let _ ← env.projAnalysisOutcome
  let st4 := updateStatus "generating_diagrams" (5/10)
    "Generating architecture diagrams..." none
  notifyCb env.callback st4
  let diagrams :=
    if env.enableDiagramGeneration then
      match env.diagramGenOutcome with
      | .ok ds => ds
      | .error _ => []
    else []
  let st5 := updateStatus "generating_content" (7/10)
    "Generating slide content..." none
  notifyCb env.callback st5
  let (slides, confidence) ← env.contentGenOutcome
  let st6 := updateStatus "building_presentation" (85/100)
    "Creating PowerPoint presentation..." none
  notifyCb env.callback st6
  let path ← env.buildOutcome
  if diagrams ≠ [] then do
    let st7 := updateStatus "inserting_diagrams" (95/100)
      "Inserting diagrams into presentation..." none
    notifyCb env.callback st7
    let _ := match env.insertOutcome with
      | .ok _ => ()
      | .error _ => ()
    pure ()
  else pure ()
  let stDone := updateStatus "completed" 1
    ("Presentation created successfully: " ++ path) none
  notifyCb env.callback stDone
  pure ⟨true, none, some path, extractedCount, slides.length, diagrams.length,
    confidence, stDone⟩

/-- `PowerPointOrchestrationChain.generate_presentation` as a whole: its
`except Exception` handler sets the status record to the error state,
notifies the progress callback once more — a raise inside the handler
propagates to the caller — and returns the structured failure dictionary. -/
def generatePresentation (env : OrchestratorEnv) :
    Except String OrchestrationResult :=
  match orchestrationBody env with
  | .ok r => .ok r
  | .error e =>
    let msg := "Presentation generation failed: " ++ e
    let errSt := updateStatus "error" 0 msg none
    match env.callback with
    | some cb =>
      match cb errSt with
      | .ok _ => .ok ⟨false, some msg, none, 0, 0, 0, 0, errSt⟩
      | .error e2 => .error e2
    | none => .ok ⟨false, some msg, none, 0, 0, 0, 0, errSt⟩

/-- A successful run of the body always reports success. -/
theorem orchestrationBody_ok_success (env : OrchestratorEnv)
    (r : OrchestrationResult) (h : orchestrationBody env = .ok r) :
    r.success = true := by
  unfold orchestrationBody at h
  simp only [bind, Except.bind, pure, Except.pure, notifyCb] at h
  repeat' split at h
  all_goals first
    | exact Except.noConfusion h
    | (injection h with h2; subst h2; rfl)

/-- An environment whose progress callback always raises. -/
def exFailingCallbackEnv : OrchestratorEnv :=
  ⟨.ok 0, .ok (), .ok (), false, .ok [], .ok ([], 1/2), .ok "out.pptx",
   .ok (), some (fun _ => .error "callback failure")⟩

/-- C6 counterexample: the claim quantifies over every progress callback,
but a callback that raises is re-invoked inside the `except` handler with
no protection, so the exception propagates to the caller of
`generate_presentation` instead of a failure dictionary being returned. -/
theorem C6_counterexample :
    generatePresentation exFailingCallbackEnv = .error "callback failure" := by
  rfl

/-- C6 amended: provided the progress callback (when supplied) never raises,
`generate_presentation` always returns a result dictionary with a boolean
`success` key and never propagates an exception: on success the dictionary
reports `success = True`, and when any required stage raises it reports
`success = False` with the error message attached, after setting the status
record to the error state. -/
theorem C6_amended_no_raise (env : OrchestratorEnv)
    (hcb : ∀ cb, env.callback = some cb → ∀ st, cb st = .ok ()) :
    ∃ r, generatePresentation env = .ok r ∧
      (r.success = true ∨
        (r.success = false ∧ r.processingStatus.status = "error" ∧
          r.errorMessage.isSome = true)) ∧
      (∀ e, orchestrationBody env = .error e →
        r.success = false ∧
        r.errorMessage = some ("Presentation generation failed: " ++ e) ∧
        r.processingStatus.status = "error") := by
  cases hb : orchestrationBody env with
  | ok r0 =>
    refine ⟨r0, ?_, Or.inl (orchestrationBody_ok_success env r0 hb), ?_⟩
    · unfold generatePresentation
      rw [hb]
    · intro e he
      exact Except.noConfusion he
  | error e =>
    have hres : generatePresentation env =
        .ok ⟨false, some ("Presentation generation failed: " ++ e), none, 0, 0,
          0, 0, updateStatus "error" 0
            ("Presentation generation failed: " ++ e) none⟩ := by
      unfold generatePresentation
      rw [hb]
      cases hc : env.callback with
      | none => rfl
      | some cb => simp [hcb cb hc]
    refine ⟨_, hres, Or.inr ⟨rfl, rfl, rfl⟩, fun e' he' => ?_⟩
    injection he' with h2
    subst h2
    exact ⟨rfl, rfl, rfl⟩

/-- An environment in which every stage succeeds and no callback is set. -/
def exGoodEnv : OrchestratorEnv :=
  ⟨.ok 3, .ok (), .ok (), true, .ok [7], .ok ([⟨"Title", ["a"], "bullet", none⟩],
   8/10), .ok "proposal.pptx", .ok (), none⟩

/-- An environment in which presentation building raises. -/
def exBadBuildEnv : OrchestratorEnv :=
  ⟨.ok 0, .ok (), .ok (), false, .ok [], .ok ([], 1/2),
   .error "template unloadable", .ok (), none⟩

/-- C6 witness: the amended theorem applied at concrete environments — an
all-successful run returns a result, and a run whose build stage raises
returns a `success = False` dictionary carrying the error message with the
status record in the error state. -/
theorem C6_amended_witness :
    (∃ r, generatePresentation exGoodEnv = .ok r ∧
      (r.success = true ∨
        (r.success = false ∧ r.processingStatus.status = "error" ∧
          r.errorMessage.isSome = true))) ∧
    (∃ r, generatePresentation exBadBuildEnv = .ok r ∧ r.success = false ∧
      r.errorMessage =
        some "Presentation generation failed: template unloadable" ∧
      r.processingStatus.status = "error") := by
  constructor
  · obtain ⟨r, h1, h2, _⟩ :=
      C6_amended_no_raise exGoodEnv (fun cb hc => Option.noConfusion hc)
    exact ⟨r, h1, h2⟩
  · obtain ⟨r, h1, _, h3⟩ :=
      C6_amended_no_raise exBadBuildEnv (fun cb hc => Option.noConfusion hc)
    obtain ⟨ha, hbb, hcc⟩ := h3 "template unloadable" rfl
    exact ⟨r, h1, ha, hbb, hcc⟩
